import Mathlib

/-!
Verification of the stock-momentum-analyzer indicator pipeline.

The development shallowly embeds the indicator engine of the repository
(TW_momentun.py, US_momentum.py, streamlit_app.py) in Lean:

* numpy/pandas float scalars are modelled by the type `EF` below: an exact
  rational together with the IEEE special values NaN, +Inf and -Inf, with
  IEEE-style propagation in arithmetic and NaN-is-false comparisons
  (binary rounding error is not modelled; no verified property depends on it);
* a pandas DataFrame of daily bars is the structure `BarSeries` holding the
  Date/High/Low/Close/Volume columns as lists (clean numeric columns);
* the TA-Lib indicator calls (SMA, RSI, MACD, WILLR, STOCH) are modelled from
  the documented TA-Lib algorithms over exact rationals, producing arrays of
  `Option` values where `none` stands for the NaN padding of the unstable
  period.  The Bollinger-band fields are not modelled: they need a square
  root, which has no exact rational embedding, and no verified property
  below concerns them.
-/

set_option maxRecDepth 20000

/-- Scalar model of a numpy/pandas float: an exact rational or one of the
IEEE special values.  `val q` plays the role of the finite float `q`. -/
inductive EF where
  | val (q : ℚ)
  | nan
  | inf
  | ninf
deriving DecidableEq

/-- IEEE-style negation. -/
def EF.neg : EF → EF
  | EF.val a => EF.val (-a)
  | EF.nan => EF.nan
  | EF.inf => EF.ninf
  | EF.ninf => EF.inf

/-- IEEE-style addition: NaN propagates, opposite infinities give NaN. -/
def EF.add : EF → EF → EF
  | EF.nan, _ => EF.nan
  | _, EF.nan => EF.nan
  | EF.inf, EF.ninf => EF.nan
  | EF.ninf, EF.inf => EF.nan
  | EF.inf, _ => EF.inf
  | _, EF.inf => EF.inf
  | EF.ninf, _ => EF.ninf
  | _, EF.ninf => EF.ninf
  | EF.val a, EF.val b => EF.val (a + b)

/-- IEEE-style subtraction. -/
def EF.sub (a b : EF) : EF := EF.add a (EF.neg b)

/-- IEEE-style multiplication: NaN propagates, infinity times zero is NaN. -/
def EF.mul : EF → EF → EF
  | EF.nan, _ => EF.nan
  | _, EF.nan => EF.nan
  | EF.val a, EF.val b => EF.val (a * b)
  | EF.inf, EF.val b => if 0 < b then EF.inf else if b < 0 then EF.ninf else EF.nan
  | EF.val a, EF.inf => if 0 < a then EF.inf else if a < 0 then EF.ninf else EF.nan
  | EF.ninf, EF.val b => if 0 < b then EF.ninf else if b < 0 then EF.inf else EF.nan
  | EF.val a, EF.ninf => if 0 < a then EF.ninf else if a < 0 then EF.inf else EF.nan
  | EF.inf, EF.inf => EF.inf
  | EF.inf, EF.ninf => EF.ninf
  | EF.ninf, EF.inf => EF.ninf
  | EF.ninf, EF.ninf => EF.inf

/-- IEEE-style division: a nonzero finite value divided by (positive) zero is
a signed infinity, zero by zero is NaN.  The rational model has no negative
zero, so the zero denominator behaves like IEEE +0. -/
def EF.div : EF → EF → EF
  | EF.nan, _ => EF.nan
  | _, EF.nan => EF.nan
  | EF.val a, EF.val b =>
      if b = 0 then (if 0 < a then EF.inf else if a < 0 then EF.ninf else EF.nan)
      else EF.val (a / b)
  | EF.val _, EF.inf => EF.val 0
  | EF.val _, EF.ninf => EF.val 0
  | EF.inf, EF.val b => if 0 ≤ b then EF.inf else EF.ninf
  | EF.ninf, EF.val b => if 0 ≤ b then EF.ninf else EF.inf
  | EF.inf, _ => EF.nan
  | EF.ninf, _ => EF.nan

/-- IEEE comparison less-than: any comparison with NaN is false. -/
def EF.ltB : EF → EF → Bool
  | EF.nan, _ => false
  | _, EF.nan => false
  | EF.val a, EF.val b => decide (a < b)
  | EF.val _, EF.inf => true
  | EF.val _, EF.ninf => false
  | EF.inf, _ => false
  | EF.ninf, EF.ninf => false
  | EF.ninf, _ => true

/-- IEEE comparison greater-than: any comparison with NaN is false. -/
def EF.gtB (a b : EF) : Bool := EF.ltB b a

/-- Model of numpy.isnan. -/
def EF.isnan : EF → Bool
  | EF.nan => true
  | _ => false

/-- Model of Python round(x, 2): round to the nearest multiple of 1/100,
ties to even (the decimal idealization of Python float rounding). -/
def roundHalfEven (x : ℚ) : ℤ :=
  if x - ⌊x⌋ < 1 / 2 then ⌊x⌋
  else if 1 / 2 < x - ⌊x⌋ then ⌊x⌋ + 1
  else if ⌊x⌋ % 2 = 0 then ⌊x⌋ else ⌊x⌋ + 1

/-- Round a rational to two decimal places (Python round(x, 2)). -/
def round2 (x : ℚ) : ℚ := (roundHalfEven (x * 100) : ℚ) / 100

/-- Calendar date (year, month, day), the model of a pandas timestamp at
daily granularity and of datetime.date. -/
structure PDate where
  year : ℤ
  month : ℕ
  day : ℕ

/-- Lexicographic date comparison, the model of timestamp comparison. -/
def PDate.leB (a b : PDate) : Bool :=
  a.year < b.year ||
    (a.year = b.year &&
      (a.month < b.month || (a.month = b.month && a.day ≤ b.day)))

/-- One instrument price history as fetched by the market-data source: the
Date index and the High/Low/Close/Volume columns of the DataFrame (the Open
column is never read by the indicator engine).  Row count is the length of
the close column. -/
structure BarSeries where
  dates : List PDate
  high : List ℚ
  low : List ℚ
  close : List ℚ
  volume : List ℚ

/-- Row count of the DataFrame. -/
def BarSeries.len (df : BarSeries) : ℕ := df.close.length

/-- Column alignment: every column has as many entries as the Close column. -/
def BarSeries.WF (df : BarSeries) : Prop :=
  df.dates.length = df.close.length ∧ df.high.length = df.close.length ∧
    df.low.length = df.close.length ∧ df.volume.length = df.close.length

/-- Resolution of a Python/pandas integer position: a negative index counts
from the end of the sequence. -/
def ilocIndex (len : ℕ) (index : ℤ) : ℤ :=
  if index < 0 then (len : ℤ) + index else index

/-- Model of safe_get_value (US_momentum.py, test_indicators.py; the
TW_momentun.py variant reaches the same NaN results through the caught
IndexError instead of the explicit length test): fetch series.iloc[index]
as a float, and return NaN instead of propagating any lookup failure. -/
def safe_get_value (series : List EF) (index : ℤ) : EF :=
  if series.length = 0 then EF.nan
  else
    let i := ilocIndex series.length index
    if h : 0 ≤ i ∧ i < (series.length : ℤ) then
      series.get ⟨i.toNat, by omega⟩
    else EF.nan

/-- Python codepoint test for the characters removed by str.strip():
the ASCII whitespace characters. -/
def isPySpace (c : ℕ) : Bool :=
  c = 32 || c = 9 || c = 10 || c = 13 || c = 11 || c = 12

/-- Python str.strip() on a string modelled as its list of codepoints. -/
def pyStrip (s : List ℕ) : List ℕ :=
  ((s.dropWhile isPySpace).reverse.dropWhile isPySpace).reverse

/-- Python str.upper() on one codepoint, restricted to the ASCII case
mapping (stock tickers are ASCII). -/
def pyUpper (c : ℕ) : ℕ := if 97 ≤ c ∧ c ≤ 122 then c - 32 else c

/-- ASCII lowercase letter test. -/
def isLowerAscii (c : ℕ) : Bool := 97 ≤ c && c ≤ 122

/-- Model of validate_us_stock_code (US_momentum.py): strip and uppercase
the ticker; a ticker that already carries an exchange suffix (contains a
dot, codepoint 46) is returned as is, which coincides with the fall-through
return. -/
def validate_us_stock_code (s : List ℕ) : List ℕ :=
  let t := (pyStrip s).map pyUpper
  if 46 ∈ t then t else t

/-- Largest element of a nonempty list (Python max over a numeric sequence);
the empty case, on which Python raises, gets the junk value 0 and is
unreachable behind the 60-bar gate. -/
def listMax : List ℚ → ℚ
  | [] => 0
  | a :: l => l.foldl max a

/-- Smallest element, as listMax. -/
def listMin : List ℚ → ℚ
  | [] => 0
  | a :: l => l.foldl min a

/-- Mean of the window of k bars ending at index i: the value of a k-period
simple moving average at bar i, meaningful once i + 1 is at least k. -/
def winMean (k : ℕ) (xs : List ℚ) (i : ℕ) : ℚ :=
  ((xs.drop (i + 1 - k)).take k).sum / k

/-- Model of talib.SMA(close, k): an array of the input length whose first
k - 1 entries are the NaN warm-up. -/
def sma (k : ℕ) (xs : List ℚ) : List (Option ℚ) :=
  (List.range xs.length).map
    (fun i => if i + 1 < k then none else some (winMean k xs i))

/-- Iterate the EMA recurrence out = (x - prev) * alpha + prev over the
remaining inputs. -/
def emaRun (alpha : ℚ) (prev : ℚ) : List ℚ → List ℚ
  | [] => []
  | x :: rest =>
      let cur := (x - prev) * alpha + prev
      cur :: emaRun alpha cur rest

/-- Defined values of a k-period EMA, TA-Lib classic compatibility: seeded
with the SMA of the first k inputs, then the recurrence with
alpha = 2 / (k + 1). -/
def emaVals (k : ℕ) (ys : List ℚ) : List ℚ :=
  if ys.length < k ∨ k = 0 then []
  else
    ((ys.take k).sum / k) :: emaRun (2 / (k + 1)) ((ys.take k).sum / k) (ys.drop k)

/-- Defined values of the MACD(12, 26) line, starting at bar 25.  TA-Lib
re-seeds the fast EMA at the bar where the slow EMA becomes defined, so the
fast EMA runs over the closes from bar 14 on. -/
def macdLineVals (xs : List ℚ) : List ℚ :=
  List.zipWith (fun a b => a - b) (emaVals 12 (xs.drop 14)) (emaVals 26 xs)

/-- Defined values of the MACD(12, 26, 9) signal line, starting at bar 33. -/
def macdSignalVals (xs : List ℚ) : List ℚ := emaVals 9 (macdLineVals xs)

/-- Defined values of the MACD histogram, starting at bar 33. -/
def macdHistVals (xs : List ℚ) : List ℚ :=
  List.zipWith (fun a b => a - b) ((macdLineVals xs).drop 8) (macdSignalVals xs)

/-- Model of talib.MACD(close, 12, 26, 9): the (macd, signal, hist) arrays,
each of the input length with NaN through bar 32. -/
def MACDarrays (xs : List ℚ) : List (Option ℚ) × List (Option ℚ) × List (Option ℚ) :=
  if xs.length < 34 then
    (List.replicate xs.length none, List.replicate xs.length none,
      List.replicate xs.length none)
  else
    (List.replicate 33 none ++ ((macdLineVals xs).drop 8).map some,
      List.replicate 33 none ++ (macdSignalVals xs).map some,
      List.replicate 33 none ++ (macdHistVals xs).map some)

/-- Upward part of a one-bar close change. -/
def gainOf (d : ℚ) : ℚ := max d 0

/-- Downward part of a one-bar close change. -/
def lossOf (d : ℚ) : ℚ := max (-d) 0

/-- RSI value from the smoothed gain and loss averages; TA-Lib returns 0
when the denominator vanishes. -/
def rsiOf (g l : ℚ) : ℚ := if g + l = 0 then 0 else 100 * g / (g + l)

/-- Wilder smoothing of the gain and loss averages over the remaining
one-bar changes, emitting one RSI value per change. -/
def rsiRun (k : ℚ) (g l : ℚ) : List ℚ → List ℚ
  | [] => []
  | d :: rest =>
      let g2 := (g * (k - 1) + gainOf d) / k
      let l2 := (l * (k - 1) + lossOf d) / k
      rsiOf g2 l2 :: rsiRun k g2 l2 rest

/-- Defined values of a k-period RSI (TA-Lib): the seed averages are plain
means of the first k changes, then Wilder smoothing. -/
def rsiVals (k : ℕ) (xs : List ℚ) : List ℚ :=
  let ds := List.zipWith (fun a b => b - a) xs (xs.drop 1)
  if ds.length < k ∨ k = 0 then []
  else
    let g0 := ((ds.take k).map gainOf).sum / k
    let l0 := ((ds.take k).map lossOf).sum / k
    rsiOf g0 l0 :: rsiRun k g0 l0 (ds.drop k)

/-- Model of talib.RSI(close, k): array of the input length, NaN through
bar k - 1. -/
def rsiArr (k : ℕ) (xs : List ℚ) : List (Option ℚ) :=
  if xs.length ≤ k then List.replicate xs.length none
  else List.replicate k none ++ (rsiVals k xs).map some

/-- Model of talib.WILLR(high, low, close, 14): NaN through bar 12, then
-100 (highest - close) / (highest - lowest), 0 on a flat 14-bar range. -/
def willrArr (high low close : List ℚ) : List (Option ℚ) :=
  (List.range close.length).map (fun i =>
    if i + 1 < 14 then none
    else
      let hh := listMax ((high.drop (i + 1 - 14)).take 14)
      let ll := listMin ((low.drop (i + 1 - 14)).take 14)
      some (if hh - ll = 0 then 0 else (hh - close.getD i 0) / (hh - ll) * (-100)))

/-- Means of every full k-window of a list, in order (the defined values of
a k-period SMA). -/
def smaList (k : ℕ) (ys : List ℚ) : List ℚ :=
  if ys.length < k then []
  else (List.range (ys.length + 1 - k)).map (fun i => ((ys.drop i).take k).sum / k)

/-- Defined values of the fast %K of talib.STOCH with fastk_period 5:
100 (close - lowest) / (highest - lowest) over the trailing 5-bar range,
0 on a flat range; the value at position j belongs to bar j + 4. -/
def stochFastK (high low close : List ℚ) : List ℚ :=
  if close.length < 5 then []
  else
    (List.range (close.length - 4)).map (fun j =>
      let hh := listMax ((high.drop j).take 5)
      let ll := listMin ((low.drop j).take 5)
      if hh - ll = 0 then 0 else (close.getD (j + 4) 0 - ll) / (hh - ll) * 100)

/-- Model of talib.STOCH(high, low, close, 5, 3, 3): the (slowk, slowd)
arrays of the input length, NaN through bar 7; slowk is the 3-SMA of fast
%K and slowd the 3-SMA of slowk, both aligned to start at bar 8. -/
def stochArrays (high low close : List ℚ) : List (Option ℚ) × List (Option ℚ) :=
  if close.length < 9 then
    (List.replicate close.length none, List.replicate close.length none)
  else
    (List.replicate 8 none ++ ((smaList 3 (stochFastK high low close)).drop 2).map some,
      List.replicate 8 none ++ (smaList 3 (smaList 3 (stochFastK high low close))).map some)

/-- Model of pandas Series.pct_change(periods=k) on a clean close column:
NaN for the first k entries, then close[i] / close[i-k] - 1 with IEEE
semantics for a zero denominator. -/
def pct_change (k : ℕ) (xs : List ℚ) : List EF :=
  (List.range xs.length).map (fun i =>
    if i < k then EF.nan
    else EF.sub (EF.div (EF.val (xs.getD i 0)) (EF.val (xs.getD (i - k) 0))) (EF.val 1))

/-- Model of pandas Series.dropna. -/
def dropna (l : List EF) : List EF := l.filter (fun x => !x.isnan)

/-- Read one entry of a talib output array as a float: the NaN padding
becomes the NaN scalar. -/
def ofOpt : Option ℚ → EF
  | some q => EF.val q
  | none => EF.nan

/-- numpy subtraction on two possibly-NaN array entries. -/
def optSub : Option ℚ → Option ℚ → Option ℚ
  | some a, some b => some (a - b)
  | _, _ => none

/-- numpy comparison entry > 0; false on NaN. -/
def optGt0 : Option ℚ → Bool
  | some a => decide (0 < a)
  | none => false

/-- numpy comparison entry < 0; false on NaN. -/
def optLt0 : Option ℚ → Bool
  | some a => decide (a < 0)
  | none => false

/-- arr[-1] if len(arr) > 0 else NaN, the guard used for every last-value
dictionary entry. -/
def arrLast (arr : List (Option ℚ)) : EF :=
  if 0 < arr.length then ofOpt (arr.getD (arr.length - 1) none) else EF.nan

/-- arr[-2] if len(arr) >= 2 else NaN. -/
def arrPrev (arr : List (Option ℚ)) : EF :=
  if 2 ≤ arr.length then ofOpt (arr.getD (arr.length - 2) none) else EF.nan

/-- Dictionary entry close: safe_get_value(df Close) at the default
position -1. -/
def ind_close (close : List ℚ) : EF := safe_get_value (close.map EF.val) (-1)

/-- TW higher_high: max(Close last 5 bars) > max(Close all earlier bars). -/
def tw_higher_high (close : List ℚ) : Bool :=
  decide (listMax (close.take (close.length - 5)) <
    listMax (close.drop (close.length - 5)))

/-- TW volume_change: (last volume / mean of the last 20 volumes - 1) * 100.
The 20-bar slice iloc[-20:] includes the final bar.  The division carries
IEEE semantics (an all-zero window produces Inf or NaN, not an error). -/
def tw_volume_change (volume : List ℚ) : EF :=
  let w := volume.drop (volume.length - 20)
  EF.mul
    (EF.sub
      (EF.div (safe_get_value (volume.map EF.val) (-1)) (EF.val (w.sum / w.length)))
      (EF.val 1))
    (EF.val 100)

/-- TW vc_30: volume change above 30 percent. -/
def tw_vc_30 (volume : List ℚ) : Bool := EF.gtB (tw_volume_change volume) (EF.val 30)

/-- TW day_return: pct_change().iloc[-1] * 100. -/
def tw_day_return (close : List ℚ) : EF :=
  EF.mul ((pct_change 1 close).getD (close.length - 1) EF.nan) (EF.val 100)

/-- TW week_return: pct_change(5).dropna().iloc[-1] * 100 when at least 5
bars exist, NaN otherwise.  The IndexError Python would raise were the
dropna result empty is unreachable behind the 60-bar gate; that corner is
given the junk value NaN. -/
def tw_week_return (close : List ℚ) : EF :=
  if 5 ≤ close.length then
    EF.mul ((dropna (pct_change 5 close)).getLastD EF.nan) (EF.val 100)
  else EF.nan

/-- TW month_return: as week_return with a 22-bar lag. -/
def tw_month_return (close : List ℚ) : EF :=
  if 22 ≤ close.length then
    EF.mul ((dropna (pct_change 22 close)).getLastD EF.nan) (EF.val 100)
  else EF.nan

/-- Shared crossover flag: (ma20[-2] - ma5[-2]) > 0 and
(ma5[-1] - ma20[-1]) > 0, guarded by len(ma5) >= 2 and len(ma20) >= 2,
with numpy NaN entries making either comparison false. -/
def crossoverFlag (close : List ℚ) : Bool :=
  let ma5 := sma 5 close
  let ma20 := sma 20 close
  if 2 ≤ ma5.length ∧ 2 ≤ ma20.length then
    optGt0 (optSub (ma20.getD (ma20.length - 2) none) (ma5.getD (ma5.length - 2) none)) &&
      optGt0 (optSub (ma5.getD (ma5.length - 1) none) (ma20.getD (ma20.length - 1) none))
  else false

/-- Shared macdhist_signal flag: macdhist[-1] > 0 and macdhist[-2] < 0,
guarded by len(macdhist) >= 2, with NaN comparisons false. -/
def macdhistSignalFlag (close : List ℚ) : Bool :=
  let hist := (MACDarrays close).2.2
  if 2 ≤ hist.length then
    optGt0 (hist.getD (hist.length - 1) none) &&
      optLt0 (hist.getD (hist.length - 2) none)
  else false

/-- The dictionary built by calculate_technical_indicators (TW_momentun.py);
the three Bollinger fields are not modelled (see the file header). -/
structure TWIndicators where
  close : EF
  higher_high : Bool
  volume_change : EF
  vc_30 : Bool
  day_return : EF
  week_return : EF
  month_return : EF
  rsi5 : EF
  rsi14 : EF
  macd : EF
  macdsignal : EF
  macdhist : EF
  macdhist_signal : Bool
  ma5 : EF
  ma20 : EF
  ma60 : EF
  crossover : Bool
  willr_d : EF
  willr_d1 : EF

/-- Model of calculate_technical_indicators (TW_momentun.py): below the
60-bar gate the function returns the empty dictionary, modelled as none;
otherwise every field is computed. -/
def calculate_technical_indicators (df : BarSeries) : Option TWIndicators :=
  if df.len = 0 ∨ df.len < 60 then none
  else
    some
      { close := ind_close df.close
        higher_high := tw_higher_high df.close
        volume_change := tw_volume_change df.volume
        vc_30 := tw_vc_30 df.volume
        day_return := tw_day_return df.close
        week_return := tw_week_return df.close
        month_return := tw_month_return df.close
        rsi5 := arrLast (rsiArr 5 df.close)
        rsi14 := arrLast (rsiArr 14 df.close)
        macd := arrLast (MACDarrays df.close).1
        macdsignal := arrLast (MACDarrays df.close).2.1
        macdhist := arrLast (MACDarrays df.close).2.2
        macdhist_signal := macdhistSignalFlag df.close
        ma5 := arrLast (sma 5 df.close)
        ma20 := arrLast (sma 20 df.close)
        ma60 := arrLast (sma 60 df.close)
        crossover := crossoverFlag df.close
        willr_d := arrLast (willrArr df.high df.low df.close)
        willr_d1 := arrPrev (willrArr df.high df.low df.close) }

/-- US higher_high: max(Close last 5 bars) against max(Close of all earlier
bars), the latter 0.0 when the frame has at most 5 rows. -/
def us_higher_high (close : List ℚ) : Bool :=
  let recent5 := listMax (close.drop (close.length - 5))
  let before5 := if 5 < close.length then listMax (close.take (close.length - 5)) else 0
  decide (before5 < recent5)

/-- 52-week high: max of the High column. -/
def us_week_52_high (high : List ℚ) : ℚ := listMax high

/-- 52-week low: min of the Low column. -/
def us_week_52_low (low : List ℚ) : ℚ := listMin low

/-- Percent distance from the 52-week high, rounded to 2 decimals, with the
documented guard value 0.0 on a non-positive reference. -/
def us_pct_from_52_high (close high : List ℚ) : ℚ :=
  let wh := listMax high
  if 0 < wh then round2 (((close.getD (close.length - 1) 0 - wh) / wh) * 100) else 0

/-- Percent distance from the 52-week low, as us_pct_from_52_high. -/
def us_pct_from_52_low (close low : List ℚ) : ℚ :=
  let wl := listMin low
  if 0 < wl then round2 (((close.getD (close.length - 1) 0 - wl) / wl) * 100) else 0

/-- US volume change block: the pair (volume_change, vc_30).  The 20-bar
mean excludes the final bar when at least 21 observations exist
(iloc[-21:-1]) and includes it at exactly 20 (iloc[-20:]); a non-positive
mean or last volume falls back to (0.0, False).  The rowCount argument is
len(df); the volume list is the dropna of the Volume column, which on a
clean column is the column itself. -/
def us_volume_block (rowCount : ℕ) (volume : List ℚ) : ℚ × Bool :=
  if 20 ≤ rowCount then
    if 20 ≤ volume.length then
      let last_volume := volume.getD (volume.length - 1) 0
      let vol_20_mean :=
        if 21 ≤ volume.length then ((volume.drop (volume.length - 21)).take 20).sum / 20
        else (volume.drop (volume.length - 20)).sum / 20
      if 0 < vol_20_mean ∧ 0 < last_volume then
        (round2 ((last_volume / vol_20_mean - 1) * 100),
          decide (30 < (last_volume / vol_20_mean - 1) * 100))
      else (0, false)
    else (0, false)
  else (0, false)

/-- US day_return: safe_get_value over pct_change, 0.0 when NaN. -/
def us_day_return (close : List ℚ) : EF :=
  let day_ret := EF.mul (safe_get_value (pct_change 1 close) (-1)) (EF.val 100)
  if day_ret.isnan then EF.val 0 else day_ret

/-- US week_return: the 5-bar variant, 0.0 below 5 rows or on NaN. -/
def us_week_return (close : List ℚ) : EF :=
  if 5 ≤ close.length then
    let week_ret := EF.mul (safe_get_value (dropna (pct_change 5 close)) (-1)) (EF.val 100)
    if week_ret.isnan then EF.val 0 else week_ret
  else EF.val 0

/-- US month_return: the 22-bar variant of us_week_return. -/
def us_month_return (close : List ℚ) : EF :=
  if 22 ≤ close.length then
    let month_ret := EF.mul (safe_get_value (dropna (pct_change 22 close)) (-1)) (EF.val 100)
    if month_ret.isnan then EF.val 0 else month_ret
  else EF.val 0

/-- US ytd_return: percent change from the first close on or after January 1
of the CURRENT year, read from the ambient date (date.today()), to the last
close; 0.0 with fewer than two year-to-date rows or a non-positive first
close.  Rounded to 2 decimals. -/
def us_ytd_return (today : PDate) (dates : List PDate) (close : List ℚ) : ℚ :=
  let ytd := (List.zip dates close).filter (fun p => PDate.leB ⟨today.year, 1, 1⟩ p.1)
  if 2 ≤ ytd.length then
    let first_close := (ytd.map (fun p => p.2)).getD 0 0
    let current_close := (ytd.map (fun p => p.2)).getD (ytd.length - 1) 0
    if 0 < first_close then round2 (((current_close - first_close) / first_close) * 100)
    else 0
  else 0

/-- US 5-day volume mean, 0.0 below 5 rows. -/
def us_volume_5_mean (rowCount : ℕ) (volume : List ℚ) : ℚ :=
  if 5 ≤ rowCount then (volume.drop (volume.length - 5)).sum / 5 else 0

/-- US current volume above its 5-day mean, False below 5 rows. -/
def us_volume_above_5ma (rowCount : ℕ) (volume : List ℚ) : Bool :=
  if 5 ≤ rowCount then
    decide ((volume.drop (volume.length - 5)).sum / 5 < volume.getD (volume.length - 1) 0)
  else false

/-- US 20-day volume mean, 0.0 below 20 rows. -/
def us_volume_20_mean (rowCount : ℕ) (volume : List ℚ) : ℚ :=
  if 20 ≤ rowCount then (volume.drop (volume.length - 20)).sum / 20 else 0

/-- US current volume below its 20-day mean, False below 20 rows. -/
def us_volume_below_20ma (rowCount : ℕ) (volume : List ℚ) : Bool :=
  if 20 ≤ rowCount then
    decide (volume.getD (volume.length - 1) 0 < (volume.drop (volume.length - 20)).sum / 20)
  else false

/-- US three-day cumulative decline in percent (close of four bars back
against the last close); 0 below 4 rows or on a non-positive reference. -/
def us_decline_3days (rowCount : ℕ) (close : List ℚ) : ℚ :=
  if 4 ≤ rowCount then
    let close_3days_ago := close.getD (close.length - 4) 0
    let current_close := close.getD (close.length - 1) 0
    if 0 < close_3days_ago then ((close_3days_ago - current_close) / close_3days_ago) * 100
    else 0
  else 0

/-- Third institutional-selling condition: the three-day decline exceeds 5
percent; False wherever the decline falls back to 0. -/
def us_decline_cond3 (rowCount : ℕ) (close : List ℚ) : Bool :=
  if 4 ≤ rowCount then
    let close_3days_ago := close.getD (close.length - 4) 0
    if 0 < close_3days_ago then
      decide (5 < ((close_3days_ago - close.getD (close.length - 1) 0) / close_3days_ago) * 100)
    else false
  else false

/-- Model of the short_uptrend_momentum composite (US_momentum.py): five
conditions, each false when one of its inputs is NaN, combined with
logical and. -/
def short_uptrend_momentum (close ma5 : EF) (volume_above_5ma : Bool)
    (k5 d5 rsi14 macdhist : EF) : Bool :=
  let condition1 := if !close.isnan && !ma5.isnan then EF.gtB close ma5 else false
  let condition2 := volume_above_5ma
  let condition3 := if !k5.isnan && !d5.isnan then EF.gtB k5 d5 else false
  let condition4 := if !rsi14.isnan then EF.gtB rsi14 (EF.val 50) else false
  let condition5 := if !macdhist.isnan then EF.gtB macdhist (EF.val 0) else false
  condition1 && condition2 && condition3 && condition4 && condition5

/-- Model of the short_downtrend_signal composite (US_momentum.py). -/
def short_downtrend_signal (close ma5 : EF) (volume_below_20ma : Bool)
    (k5 d5 macdhist : EF) : Bool :=
  let condition1 := if !close.isnan && !ma5.isnan then EF.ltB close ma5 else false
  let condition2 := volume_below_20ma
  let condition3 := if !k5.isnan && !d5.isnan then EF.ltB k5 d5 else false
  let condition4 := if !macdhist.isnan then EF.ltB macdhist (EF.val 0) else false
  condition1 && condition2 && condition3 && condition4

/-- Model of the institutional_selling composite (US_momentum.py). -/
def institutional_selling (close ma20 : EF) (volume_above_5ma : Bool)
    (cond3 : Bool) : Bool :=
  let condition1 := if !close.isnan && !ma20.isnan then EF.ltB close ma20 else false
  condition1 && volume_above_5ma && cond3

/-- The dictionary built by calculate_us_technical_indicators
(US_momentum.py); the three Bollinger fields are not modelled (see the file
header), and all_time_high lives in the batch routine, outside the
engine. -/
structure USIndicators where
  close : EF
  higher_high : Bool
  week_52_high : ℚ
  week_52_low : ℚ
  pct_from_52_high : ℚ
  pct_from_52_low : ℚ
  volume_change : ℚ
  vc_30 : Bool
  day_return : EF
  week_return : EF
  month_return : EF
  ytd_return : ℚ
  rsi5 : EF
  rsi14 : EF
  macd : EF
  macdsignal : EF
  macdhist : EF
  macdhist_signal : Bool
  ma5 : EF
  ma20 : EF
  ma60 : EF
  crossover : Bool
  willr_d : EF
  willr_d1 : EF
  k5 : EF
  d5 : EF
  volume_5_mean : ℚ
  volume_above_5ma : Bool
  volume_20_mean : ℚ
  volume_below_20ma : Bool
  decline_3days : ℚ
  short_uptrend_momentum : Bool
  short_downtrend_signal : Bool
  institutional_selling : Bool

/-- The indicator dictionary of calculate_us_technical_indicators
(US_momentum.py) with its one date-dependent entry, the ytd_return value,
passed in as a parameter: every other entry reads the bar series alone,
which this formulation makes manifest. -/
def us_indicators_core (ytd_value : ℚ) (df : BarSeries) : USIndicators :=
  { close := ind_close df.close
    higher_high := us_higher_high df.close
    week_52_high := us_week_52_high df.high
    week_52_low := us_week_52_low df.low
    pct_from_52_high := us_pct_from_52_high df.close df.high
    pct_from_52_low := us_pct_from_52_low df.close df.low
    volume_change := (us_volume_block df.len df.volume).1
    vc_30 := (us_volume_block df.len df.volume).2
    day_return := us_day_return df.close
    week_return := us_week_return df.close
    month_return := us_month_return df.close
    ytd_return := ytd_value
    rsi5 := arrLast (rsiArr 5 df.close)
    rsi14 := arrLast (rsiArr 14 df.close)
    macd := arrLast (MACDarrays df.close).1
    macdsignal := arrLast (MACDarrays df.close).2.1
    macdhist := arrLast (MACDarrays df.close).2.2
    macdhist_signal := macdhistSignalFlag df.close
    ma5 := arrLast (sma 5 df.close)
    ma20 := arrLast (sma 20 df.close)
    ma60 := arrLast (sma 60 df.close)
    crossover := crossoverFlag df.close
    willr_d := arrLast (willrArr df.high df.low df.close)
    willr_d1 := arrPrev (willrArr df.high df.low df.close)
    k5 := arrLast (stochArrays df.high df.low df.close).1
    d5 := arrLast (stochArrays df.high df.low df.close).2
    volume_5_mean := us_volume_5_mean df.len df.volume
    volume_above_5ma := us_volume_above_5ma df.len df.volume
    volume_20_mean := us_volume_20_mean df.len df.volume
    volume_below_20ma := us_volume_below_20ma df.len df.volume
    decline_3days := us_decline_3days df.len df.close
    short_uptrend_momentum :=
      short_uptrend_momentum (ind_close df.close) (arrLast (sma 5 df.close))
        (us_volume_above_5ma df.len df.volume)
        (arrLast (stochArrays df.high df.low df.close).1)
        (arrLast (stochArrays df.high df.low df.close).2)
        (arrLast (rsiArr 14 df.close)) (arrLast (MACDarrays df.close).2.2)
    short_downtrend_signal :=
      short_downtrend_signal (ind_close df.close) (arrLast (sma 5 df.close))
        (us_volume_below_20ma df.len df.volume)
        (arrLast (stochArrays df.high df.low df.close).1)
        (arrLast (stochArrays df.high df.low df.close).2)
        (arrLast (MACDarrays df.close).2.2)
    institutional_selling :=
      institutional_selling (ind_close df.close) (arrLast (sma 20 df.close))
        (us_volume_above_5ma df.len df.volume)
        (us_decline_cond3 df.len df.close) }

/-- Model of calculate_us_technical_indicators (US_momentum.py).  Besides
the bar series the function reads the ambient calendar date through
date.today() for the ytd_return field, so the model takes that date as the
explicit argument today.  Below the 60-bar gate the empty dictionary is
returned, modelled as none. -/
def calculate_us_technical_indicators (today : PDate) (df : BarSeries) :
    Option USIndicators :=
  if df.len = 0 ∨ df.len < 60 then none
  else some (us_indicators_core (us_ytd_return today df.dates df.close) df)

/-- Composite_Momentum_s, computed on the batch result frame (TW_momentun.py
and US_momentum.py, elementwise per instrument):
(RSI_5 - 50) + (Macdhist - macdhist_signal cast to 0.0/1.0)
+ (Ma5 - Ma20) / Ma20 * 100, with pandas float semantics.  The Ma20
denominator carries no zero-guard. -/
def Composite_Momentum_s (rsi5 macdhist : EF) (macdhist_signal : Bool)
    (ma5 ma20 : EF) : EF :=
  EF.add
    (EF.add (EF.sub rsi5 (EF.val 50))
      (EF.sub macdhist (EF.val (if macdhist_signal then 1 else 0))))
    (EF.mul (EF.div (EF.sub ma5 ma20) ma20) (EF.val 100))

/-- Composite_Momentum_l: the long variant over RSI_14, Ma20 and Ma60, with
the unguarded Ma60 denominator. -/
def Composite_Momentum_l (rsi14 macdhist : EF) (macdhist_signal : Bool)
    (ma20 ma60 : EF) : EF :=
  EF.add
    (EF.add (EF.sub rsi14 (EF.val 50))
      (EF.sub macdhist (EF.val (if macdhist_signal then 1 else 0))))
    (EF.mul (EF.div (EF.sub ma20 ma60) ma60) (EF.val 100))

/-- Outcome of one yf.download call: the downloaded frame, or a raised
exception (timeout, malformed response and so on). -/
inductive FetchResult where
  | ok (df : BarSeries)
  | err

/-- One row of the batch output frame (TW_momentun.py): instrument identity
plus every indicator entry.  The dictionary defaults of the result-building
block never fire because the engine populates every key behind its gate. -/
structure StockRecord where
  ticker : String
  name : String
  ind : TWIndicators

/-- One iteration of the process_stock_data loop (TW_momentun.py): the
instrument is skipped when its fetch raises (the try/except turns any raise
into continue), when the frame is empty, when it has fewer than 60 bars, or
when the indicator dictionary comes back empty; otherwise its record is
built. -/
def processOne (fetch : String → FetchResult) (row : String × String) :
    Option StockRecord :=
  match fetch row.1 with
  | FetchResult.err => none
  | FetchResult.ok df =>
      if df.len = 0 then none
      else if df.len < 60 then none
      else
        match calculate_technical_indicators df with
        | none => none
        | some ind => some { ticker := row.1, name := row.2, ind := ind }

/-- Model of process_stock_data (TW_momentun.py): fold the per-instrument
pipeline over the watchlist rows (ticker and display name, as read from the
code workbook), accumulating the records of the instruments that survive;
the yfinance boundary is the fetch oracle. -/
def process_stock_data (fetch : String → FetchResult) :
    List (String × String) → List StockRecord
  | [] => []
  | row :: rest =>
      match processOne fetch row with
      | none => process_stock_data fetch rest
      | some r => r :: process_stock_data fetch rest

/-- A three-bar frame, far below the 60-bar gate. -/
def demoShort : BarSeries :=
  { dates := List.replicate 3 ⟨2025, 1, 2⟩
    high := [10, 11, 12]
    low := [9, 10, 11]
    close := [10, 11, 12]
    volume := [100, 110, 120] }

/-- Sixty volumes of 10 with a final spike to 40. -/
def demoVolumes : List ℚ := List.replicate 59 10 ++ [40]

/-- A flat 60-bar frame with the volume spike of demoVolumes. -/
def demoTW : BarSeries :=
  { dates := (List.range 60).map (fun i => ⟨2025, 3, i + 1⟩)
    high := List.replicate 60 10
    low := List.replicate 60 10
    close := List.replicate 60 10
    volume := demoVolumes }

/-- Sixty dates spanning a year boundary: thirty in March 2025, thirty in
January 2026. -/
def demoDatesUS : List PDate :=
  (List.range 30).map (fun i => ⟨2025, 3, i + 1⟩) ++
    (List.range 30).map (fun i => ⟨2026, 1, i + 1⟩)

/-- Closes of 10 over the 2025 bars and 20 over the 2026 bars. -/
def demoCloseUS : List ℚ := List.replicate 30 10 ++ List.replicate 30 20

/-- A 60-bar frame whose close level doubles at the year boundary. -/
def demoUS : BarSeries :=
  { dates := demoDatesUS
    high := demoCloseUS
    low := demoCloseUS
    close := demoCloseUS
    volume := List.replicate 60 10 }

/-- A fetch oracle for three instruments in which the middle fetch raises
and the outer two return the flat 60-bar frame. -/
def demoFetch (t : String) : FetchResult :=
  if t = "B" then FetchResult.err else FetchResult.ok demoTW

/-- The three-instrument watchlist of the batch-isolation scenario. -/
def demoRows : List (String × String) := [("A", "a"), ("B", "b"), ("C", "c")]

theorem pyUpper_isPySpace (c : ℕ) : isPySpace (pyUpper c) = isPySpace c := by
  by_cases h : 97 ≤ c ∧ c ≤ 122
  · have h1 : isPySpace (c - 32) = false := by
      simp only [isPySpace, Bool.or_eq_false_iff, decide_eq_false_iff_not]; omega
    have h2 : isPySpace c = false := by
      simp only [isPySpace, Bool.or_eq_false_iff, decide_eq_false_iff_not]; omega
    simp [pyUpper, h, h1, h2]
  · simp [pyUpper, h]

theorem pyUpper_idem (c : ℕ) : pyUpper (pyUpper c) = pyUpper c := by
  unfold pyUpper
  split
  · next h =>
      have hno : ¬ (97 ≤ c - 32 ∧ c - 32 ≤ 122) := by omega
      rw [if_neg hno]
  · rfl

theorem pyUpper_not_lower (c : ℕ) : isLowerAscii (pyUpper c) = false := by
  unfold pyUpper isLowerAscii
  split
  · next h => simp only [Bool.and_eq_false_iff, decide_eq_false_iff_not]; omega
  · next h => simp only [Bool.and_eq_false_iff, decide_eq_false_iff_not]; omega

theorem dropWhile_map_comm (f : ℕ → ℕ) (p : ℕ → Bool)
    (hf : ∀ c, p (f c) = p c) (l : List ℕ) :
    (l.map f).dropWhile p = (l.dropWhile p).map f := by
  induction l with
  | nil => rfl
  | cons a l ih =>
      simp only [List.map_cons, List.dropWhile_cons, hf a]
      split <;> simp [ih]

theorem pyStrip_map_pyUpper (l : List ℕ) :
    pyStrip (l.map pyUpper) = (pyStrip l).map pyUpper := by
  unfold pyStrip
  rw [dropWhile_map_comm pyUpper isPySpace pyUpper_isPySpace, ← List.map_reverse,
    dropWhile_map_comm pyUpper isPySpace pyUpper_isPySpace, ← List.map_reverse]

/-- pyStrip is the right-strip of the left-strip. -/
theorem pyStrip_eq_rdropWhile (s : List ℕ) :
    pyStrip s = List.rdropWhile isPySpace (s.dropWhile isPySpace) := rfl

theorem head?_dropWhile_false (p : ℕ → Bool) (l : List ℕ) (a : ℕ)
    (h : (l.dropWhile p).head? = some a) : p a = false := by
  induction l with
  | nil => simp at h
  | cons b l ih =>
      rw [List.dropWhile_cons] at h
      by_cases hb : p b
      · rw [if_pos hb] at h
        exact ih h
      · rw [if_neg hb] at h
        simp only [List.head?_cons, Option.some.injEq] at h
        subst h
        exact Bool.eq_false_iff.mpr hb

theorem pyStrip_idem (l : List ℕ) : pyStrip (pyStrip l) = pyStrip l := by
  rw [pyStrip_eq_rdropWhile, pyStrip_eq_rdropWhile]
  have h : List.dropWhile isPySpace
      (List.rdropWhile isPySpace (l.dropWhile isPySpace)) =
      List.rdropWhile isPySpace (l.dropWhile isPySpace) := by
    obtain ⟨t, ht⟩ :=
      List.rdropWhile_prefix isPySpace (l.dropWhile isPySpace)
    cases hM : List.rdropWhile isPySpace (l.dropWhile isPySpace) with
    | nil => rfl
    | cons a u =>
        have hha : (l.dropWhile isPySpace).head? = some a := by
          rw [← ht, hM]
          rfl
        have ha := head?_dropWhile_false isPySpace l a hha
        simp [List.dropWhile_cons, ha]
  rw [h, List.rdropWhile_idempotent]

/-- C10: validate_us_stock_code is idempotent, and its result carries no
leading or trailing whitespace (it is a pyStrip fixed point) and no
(ASCII) lowercase letter. -/
theorem validate_us_stock_code_idempotent (s : List ℕ) :
    validate_us_stock_code (validate_us_stock_code s) = validate_us_stock_code s ∧
    pyStrip (validate_us_stock_code s) = validate_us_stock_code s ∧
    (validate_us_stock_code s).all (fun c => !isLowerAscii c) = true := by
  have hv : ∀ u : List ℕ, validate_us_stock_code u = (pyStrip u).map pyUpper := by
    intro u
    simp [validate_us_stock_code, ite_self]
  refine ⟨?_, ?_, ?_⟩
  · rw [hv, hv, pyStrip_map_pyUpper, pyStrip_idem, List.map_map]
    congr 1
    funext c
    exact pyUpper_idem c
  · rw [hv, pyStrip_map_pyUpper, pyStrip_idem]
  · rw [hv]
    simp only [List.all_eq_true, List.mem_map]
    rintro c ⟨d, _, rfl⟩
    simp [pyUpper_not_lower]

theorem EF.isnan_iff (x : EF) : x.isnan = true ↔ x = EF.nan := by
  cases x <;> simp [EF.isnan]

/-- C1: for a frame that is empty or has fewer than 60 bars, both indicator
engines return the empty indicator set (none): no field is computed and no
partially populated set can arise. -/
theorem short_series_gives_empty_indicators (today : PDate) (df : BarSeries)
    (h : df.len < 60) :
    calculate_technical_indicators df = none ∧
      calculate_us_technical_indicators today df = none := by
  constructor
  · unfold calculate_technical_indicators
    rw [if_pos (Or.inr h)]
  · unfold calculate_us_technical_indicators
    rw [if_pos (Or.inr h)]

/-- Witness for C1 at the three-bar frame. -/
theorem short_series_gives_empty_indicators_witness :
    calculate_technical_indicators demoShort = none ∧
      calculate_us_technical_indicators ⟨2026, 2, 10⟩ demoShort = none :=
  short_series_gives_empty_indicators ⟨2026, 2, 10⟩ demoShort (by decide)

/-- C2 counterexample: with Ma20 = 0 and ordinary finite values elsewhere,
Composite_Momentum_s evaluates to +Inf, which is neither 0.0 nor the NaN
unavailability marker; and with SMA20 = 0 feeding Composite_Momentum_l as
its numerator, the long score is an ordinary nonzero finite value, also
neither 0.0 nor unavailable. -/
theorem composite_momentum_zero_ma20_not_guarded :
    Composite_Momentum_s (EF.val 60) (EF.val 1) false (EF.val 12) (EF.val 0) = EF.inf ∧
    Composite_Momentum_l (EF.val 60) (EF.val 1) false (EF.val 0) (EF.val 8) =
      EF.val (-89) ∧
    EF.inf ≠ EF.val 0 ∧ EF.inf ≠ EF.nan ∧ EF.val (-89) ≠ EF.val 0 ∧
      EF.val (-89) ≠ EF.nan := by
  refine ⟨?_, ?_, fun h => EF.noConfusion h, fun h => EF.noConfusion h,
    by norm_num, fun h => EF.noConfusion h⟩
  · norm_num [Composite_Momentum_s, EF.add, EF.sub, EF.neg, EF.mul, EF.div]
  · norm_num [Composite_Momentum_l, EF.add, EF.sub, EF.neg, EF.mul, EF.div]

/-- C2 amended: the composite-momentum computation applies no
zero-denominator guard: for finite inputs with a positive Ma5 and Ma20 = 0,
Composite_Momentum_s is +Inf (never 0.0 or unavailable); the division by a
zero or non-positive moving average propagates IEEE results into the
score. -/
theorem composite_momentum_s_zero_ma20_inf (a b c : ℚ) (sig : Bool)
    (h : 0 < c) :
    Composite_Momentum_s (EF.val a) (EF.val b) sig (EF.val c) (EF.val 0) =
      EF.inf := by
  have hdiv : EF.div (EF.sub (EF.val c) (EF.val 0)) (EF.val 0) = EF.inf := by
    simp [EF.sub, EF.neg, EF.add, EF.div, h]
  unfold Composite_Momentum_s
  rw [hdiv]
  have hmul : EF.mul EF.inf (EF.val 100) = EF.inf := by
    norm_num [EF.mul]
  rw [hmul]
  simp [EF.sub, EF.neg, EF.add]

/-- Witness for the amended C2 theorem. -/
theorem composite_momentum_s_zero_ma20_inf_witness :
    Composite_Momentum_s (EF.val 55) (EF.val 2) true (EF.val 7) (EF.val 0) =
      EF.inf :=
  composite_momentum_s_zero_ma20_inf 55 2 7 true (by norm_num)

theorem safe_get_value_in_range (s : List EF) (index : ℤ)
    (h : 0 ≤ ilocIndex s.length index ∧
      ilocIndex s.length index < (s.length : ℤ)) :
    safe_get_value s index = s.getD (ilocIndex s.length index).toNat EF.nan := by
  have hlen : ¬ s.length = 0 := by
    intro h0
    unfold ilocIndex at h
    rw [h0] at h
    split at h <;> omega
  unfold safe_get_value
  rw [if_neg hlen]
  rw [dif_pos h]
  rw [List.getD_eq_getElem s EF.nan (by omega)]
  simp [List.get_eq_getElem]

theorem safe_get_value_out_range (s : List EF) (index : ℤ)
    (h : ¬ (0 ≤ ilocIndex s.length index ∧
      ilocIndex s.length index < (s.length : ℤ))) :
    safe_get_value s index = EF.nan := by
  unfold safe_get_value
  by_cases h0 : s.length = 0
  · rw [if_pos h0]
  · rw [if_neg h0, dif_neg h]

/-- C9: safe_get_value is total: when the (possibly negative) index
resolves inside the series it returns the addressed element as a float,
and in every failure case (empty series, out-of-range index) it returns
NaN; being a total function of the model, it propagates no exception. -/
theorem safe_get_value_total (s : List EF) (index : ℤ) :
    (0 ≤ ilocIndex s.length index ∧ ilocIndex s.length index < (s.length : ℤ) →
      safe_get_value s index = s.getD (ilocIndex s.length index).toNat EF.nan) ∧
    (¬ (0 ≤ ilocIndex s.length index ∧
        ilocIndex s.length index < (s.length : ℤ)) →
      safe_get_value s index = EF.nan) :=
  ⟨safe_get_value_in_range s index, safe_get_value_out_range s index⟩

/-- Witness for C9: the last element through index -1, NaN beyond the end
and NaN on the empty series. -/
theorem safe_get_value_total_witness :
    safe_get_value [EF.val 7, EF.val 9] (-1) = EF.val 9 ∧
      safe_get_value [EF.val 7, EF.val 9] 5 = EF.nan ∧
      safe_get_value [] 0 = EF.nan := by
  refine ⟨?_, ?_, ?_⟩
  · have h := (safe_get_value_total [EF.val 7, EF.val 9] (-1)).1 (by decide)
    rw [h]
    norm_num [ilocIndex, List.getD]
  · exact (safe_get_value_total [EF.val 7, EF.val 9] 5).2 (by decide)
  · exact (safe_get_value_total [] 0).2 (by decide)

theorem guard_gtB (a b : EF) :
    (if !a.isnan && !b.isnan then EF.gtB a b else false) = EF.gtB a b := by
  cases a <;> cases b <;> simp [EF.isnan, EF.gtB, EF.ltB]

theorem guard_gtB_one (a : EF) (c : ℚ) :
    (if !a.isnan then EF.gtB a (EF.val c) else false) = EF.gtB a (EF.val c) := by
  cases a <;> simp [EF.isnan, EF.gtB, EF.ltB]

/-- C6: the Short-Uptrend-Momentum composite equals the plain conjunction
of its five sub-conditions (close above SMA5, volume above its 5-day mean,
%K above %D, RSI14 above 50, positive MACD histogram, with NaN comparisons
false), and a NaN (unavailable) numeric input or a false sub-condition
forces the composite to false rather than an error. -/
theorem short_uptrend_momentum_and_semantics (close ma5 : EF) (vab : Bool)
    (k5 d5 rsi14 macdhist : EF) :
    (short_uptrend_momentum close ma5 vab k5 d5 rsi14 macdhist =
      (EF.gtB close ma5 && vab && EF.gtB k5 d5 && EF.gtB rsi14 (EF.val 50) &&
        EF.gtB macdhist (EF.val 0))) ∧
    (close = EF.nan →
      short_uptrend_momentum close ma5 vab k5 d5 rsi14 macdhist = false) ∧
    (ma5 = EF.nan →
      short_uptrend_momentum close ma5 vab k5 d5 rsi14 macdhist = false) ∧
    (k5 = EF.nan →
      short_uptrend_momentum close ma5 vab k5 d5 rsi14 macdhist = false) ∧
    (d5 = EF.nan →
      short_uptrend_momentum close ma5 vab k5 d5 rsi14 macdhist = false) ∧
    (rsi14 = EF.nan →
      short_uptrend_momentum close ma5 vab k5 d5 rsi14 macdhist = false) ∧
    (macdhist = EF.nan →
      short_uptrend_momentum close ma5 vab k5 d5 rsi14 macdhist = false) ∧
    (vab = false →
      short_uptrend_momentum close ma5 vab k5 d5 rsi14 macdhist = false) := by
  refine ⟨?_, ?_, ?_, ?_, ?_, ?_, ?_, ?_⟩
  · unfold short_uptrend_momentum
    rw [guard_gtB close ma5, guard_gtB k5 d5, guard_gtB_one rsi14 50,
      guard_gtB_one macdhist 0]
  · intro h; subst h; simp [short_uptrend_momentum, EF.isnan]
  · intro h; subst h; simp [short_uptrend_momentum, EF.isnan]
  · intro h; subst h; simp [short_uptrend_momentum, EF.isnan]
  · intro h; subst h; simp [short_uptrend_momentum, EF.isnan]
  · intro h; subst h; simp [short_uptrend_momentum, EF.isnan]
  · intro h; subst h; simp [short_uptrend_momentum, EF.isnan]
  · intro h; subst h; simp [short_uptrend_momentum]

/-- Witness for C6: an unavailable close forces the composite to false even
with every other condition satisfied. -/
theorem short_uptrend_momentum_and_semantics_witness :
    short_uptrend_momentum EF.nan (EF.val 1) true (EF.val 2) (EF.val 1)
      (EF.val 60) (EF.val 1) = false :=
  (short_uptrend_momentum_and_semantics EF.nan (EF.val 1) true (EF.val 2)
    (EF.val 1) (EF.val 60) (EF.val 1)).2.1 rfl

theorem processOne_ticker (fetch : String → FetchResult) (row : String × String)
    (r : StockRecord) (h : processOne fetch row = some r) : r.ticker = row.1 := by
  unfold processOne at h
  split at h
  · simp at h
  · split at h
    · simp at h
    · split at h
      · simp at h
      · split at h
        · simp at h
        · simp only [Option.some.injEq] at h
          rw [← h]

/-- C7: the batch runner equals the per-instrument pipeline with its
failures filtered out: the result set carries exactly the records of the
successful instruments, in watchlist order, and an instrument whose fetch
raises or whose frame is empty or short is merely omitted (the runner is a
total function of the fetch oracle, so no per-instrument failure escapes
to the caller). -/
theorem process_stock_data_isolates_failures (fetch : String → FetchResult)
    (rows : List (String × String)) :
    process_stock_data fetch rows = rows.filterMap (processOne fetch) ∧
      (process_stock_data fetch rows).map StockRecord.ticker =
        (rows.filter (fun row => (processOne fetch row).isSome)).map Prod.fst := by
  have hmain : ∀ l : List (String × String),
      process_stock_data fetch l = l.filterMap (processOne fetch) := by
    intro l
    induction l with
    | nil => rfl
    | cons row rest ih =>
        unfold process_stock_data
        rw [List.filterMap_cons]
        cases hp : processOne fetch row with
        | none => simpa using ih
        | some r => simpa using ih
  have h2 : ∀ l : List (String × String),
      (l.filterMap (processOne fetch)).map StockRecord.ticker =
        (l.filter (fun row => (processOne fetch row).isSome)).map Prod.fst := by
    intro l
    induction l with
    | nil => rfl
    | cons row rest ih =>
        rw [List.filterMap_cons, List.filter_cons]
        cases hp : processOne fetch row with
        | none => simpa [hp] using ih
        | some r =>
            simp only [hp, Option.isSome_some, if_true, List.map_cons]
            rw [processOne_ticker fetch row r hp, ih]
  exact ⟨hmain rows, by rw [hmain rows]; exact h2 rows⟩

/-- C8 amended: the engines are deterministic given the bar series and the
evaluation date: the TW engine reads nothing besides the series, and every
US field except ytd_return is independent of the ambient date, so two
invocations agree whenever the series and the current date agree; purity
over the series alone fails only through ytd_return (see the
counterexample). -/
theorem engines_deterministic_given_date (d1 d2 : PDate) (df : BarSeries) :
    (calculate_us_technical_indicators d1 df).map
        (fun r => { r with ytd_return := 0 }) =
      (calculate_us_technical_indicators d2 df).map
        (fun r => { r with ytd_return := 0 }) ∧
      calculate_technical_indicators df = calculate_technical_indicators df := by
  have key : ∀ d : PDate,
      (calculate_us_technical_indicators d df).map
          (fun r => { r with ytd_return := 0 }) =
        (if df.len = 0 ∨ df.len < 60 then none
          else some (us_indicators_core 0 df)) := by
    intro d
    unfold calculate_us_technical_indicators
    split
    · rfl
    · show some { us_indicators_core (us_ytd_return d df.dates df.close) df with
        ytd_return := 0 } = some (us_indicators_core 0 df)
      rfl
  exact ⟨by rw [key d1, key d2], rfl⟩

theorem demo_zip_eq : List.zip demoDatesUS demoCloseUS =
    (List.range 30).map (fun i => ((⟨2025, 3, i + 1⟩ : PDate), (10 : ℚ))) ++
      (List.range 30).map (fun i => ((⟨2026, 1, i + 1⟩ : PDate), (20 : ℚ))) := by
  unfold demoDatesUS demoCloseUS
  have h10 : List.replicate 30 (10 : ℚ) = (List.range 30).map (fun _ => (10 : ℚ)) := by
    rw [List.map_const']
    simp
  have h20 : List.replicate 30 (20 : ℚ) = (List.range 30).map (fun _ => (20 : ℚ)) := by
    rw [List.map_const']
    simp
  rw [h10, h20, List.zip_append (by simp), List.zip_map', List.zip_map']

theorem us_ytd_demo_2026 :
    us_ytd_return ⟨2026, 2, 10⟩ demoDatesUS demoCloseUS = 0 := by
  unfold us_ytd_return
  rw [demo_zip_eq, List.filter_append, List.map_filter, List.map_filter]
  have hnil : List.filter
      ((fun p => PDate.leB ⟨(2026 : ℤ), 1, 1⟩ p.1) ∘
        fun i => ((⟨2025, 3, i + 1⟩ : PDate), (10 : ℚ))) (List.range 30) = [] := by
    rw [List.filter_eq_nil_iff]
    intro a _
    norm_num [PDate.leB, Function.comp]
  have hall : List.filter
      ((fun p => PDate.leB ⟨(2026 : ℤ), 1, 1⟩ p.1) ∘
        fun i => ((⟨2026, 1, i + 1⟩ : PDate), (20 : ℚ))) (List.range 30) =
      List.range 30 := by
    rw [List.filter_eq_self]
    intro a _
    norm_num [PDate.leB, Function.comp]
  rw [hnil, hall]
  norm_num [List.getD_eq_getElem?_getD, List.getElem?_map, List.getElem?_range,
    round2, roundHalfEven]

theorem us_ytd_demo_2025 :
    us_ytd_return ⟨2025, 12, 31⟩ demoDatesUS demoCloseUS = 100 := by
  unfold us_ytd_return
  rw [demo_zip_eq, List.filter_append, List.map_filter, List.map_filter]
  have hall1 : List.filter
      ((fun p => PDate.leB ⟨(2025 : ℤ), 1, 1⟩ p.1) ∘
        fun i => ((⟨2025, 3, i + 1⟩ : PDate), (10 : ℚ))) (List.range 30) =
      List.range 30 := by
    rw [List.filter_eq_self]
    intro a _
    norm_num [PDate.leB, Function.comp]
  have hall2 : List.filter
      ((fun p => PDate.leB ⟨(2025 : ℤ), 1, 1⟩ p.1) ∘
        fun i => ((⟨2026, 1, i + 1⟩ : PDate), (20 : ℚ))) (List.range 30) =
      List.range 30 := by
    rw [List.filter_eq_self]
    intro a _
    norm_num [PDate.leB, Function.comp]
  rw [hall1, hall2]
  norm_num [List.getD_eq_getElem?_getD, List.getElem?_append_right,
    List.getElem?_append, List.getElem?_map, List.getElem?_range,
    List.getElem_append_left, List.getElem_append_right, List.getElem_map,
    List.getElem_range, List.map_append, List.map_map, List.length_append,
    List.length_map, List.length_range, round2, roundHalfEven]

/-- C8 counterexample: the US engine is not a function of the bar series
alone: on one and the same 60-bar frame its ytd_return is 0 when the
ambient date lies in 2026 but 100 when it lies in 2025, so two invocations
with identical input series return different indicator sets. -/
theorem us_engine_depends_on_ambient_date :
    (calculate_us_technical_indicators ⟨2026, 2, 10⟩ demoUS).map
        USIndicators.ytd_return = some 0 ∧
      (calculate_us_technical_indicators ⟨2025, 12, 31⟩ demoUS).map
        USIndicators.ytd_return = some 100 ∧
      calculate_us_technical_indicators ⟨2026, 2, 10⟩ demoUS ≠
        calculate_us_technical_indicators ⟨2025, 12, 31⟩ demoUS := by
  have hgate : ¬ (demoUS.len = 0 ∨ demoUS.len < 60) := by
    norm_num [demoUS, BarSeries.len, demoCloseUS, List.length_append,
      List.length_replicate]
  have h1 : (calculate_us_technical_indicators ⟨2026, 2, 10⟩ demoUS).map
      USIndicators.ytd_return = some 0 := by
    unfold calculate_us_technical_indicators
    rw [if_neg hgate]
    show some (us_ytd_return ⟨2026, 2, 10⟩ demoUS.dates demoUS.close) = some 0
    rw [show demoUS.dates = demoDatesUS from rfl,
      show demoUS.close = demoCloseUS from rfl, us_ytd_demo_2026]
  have h2 : (calculate_us_technical_indicators ⟨2025, 12, 31⟩ demoUS).map
      USIndicators.ytd_return = some 100 := by
    unfold calculate_us_technical_indicators
    rw [if_neg hgate]
    show some (us_ytd_return ⟨2025, 12, 31⟩ demoUS.dates demoUS.close) = some 100
    rw [show demoUS.dates = demoDatesUS from rfl,
      show demoUS.close = demoCloseUS from rfl, us_ytd_demo_2025]
  refine ⟨h1, h2, fun heq => ?_⟩
  have hc := congrArg (Option.map USIndicators.ytd_return) heq
  rw [h1, h2] at hc
  simp at hc

theorem sma_length (k : ℕ) (xs : List ℚ) : (sma k xs).length = xs.length := by
  simp [sma]

theorem sma_getD (k : ℕ) (xs : List ℚ) (i : ℕ) (hik : k ≤ i + 1)
    (hi : i < xs.length) :
    (sma k xs).getD i none = some (winMean k xs i) := by
  unfold sma
  rw [List.getD_eq_getElem?_getD, List.getElem?_map, List.getElem?_range hi]
  simp [Nat.not_lt.mpr hik]

theorem crossoverFlag_eq (xs : List ℚ) (h : 60 ≤ xs.length) :
    crossoverFlag xs =
      (decide (0 < winMean 20 xs (xs.length - 2) -
          winMean 5 xs (xs.length - 2)) &&
        decide (0 < winMean 5 xs (xs.length - 1) -
          winMean 20 xs (xs.length - 1))) := by
  have h5 := sma_length 5 xs
  have h20 := sma_length 20 xs
  simp only [crossoverFlag, h5, h20]
  rw [if_pos (by constructor <;> omega : 2 ≤ xs.length ∧ 2 ≤ xs.length)]
  rw [sma_getD 20 xs (xs.length - 2) (by omega) (by omega),
    sma_getD 5 xs (xs.length - 2) (by omega) (by omega),
    sma_getD 5 xs (xs.length - 1) (by omega) (by omega),
    sma_getD 20 xs (xs.length - 1) (by omega) (by omega)]
  simp [optSub, optGt0]

/-- C4: behind the 60-bar gate the Crossover flag of both engines is true
iff SMA20 minus SMA5 was positive at the penultimate bar and SMA5 minus
SMA20 is positive at the final bar, the SMAs being the trailing window
means of the closing prices; for any series failing that below-to-above
transition the flag is false. -/
theorem crossover_iff_sma_transition (today : PDate) (df : BarSeries)
    (h : 60 ≤ df.len) :
    (calculate_technical_indicators df).map TWIndicators.crossover =
        some (decide (0 < winMean 20 df.close (df.len - 2) -
            winMean 5 df.close (df.len - 2)) &&
          decide (0 < winMean 5 df.close (df.len - 1) -
            winMean 20 df.close (df.len - 1))) ∧
      (calculate_us_technical_indicators today df).map USIndicators.crossover =
        some (decide (0 < winMean 20 df.close (df.len - 2) -
            winMean 5 df.close (df.len - 2)) &&
          decide (0 < winMean 5 df.close (df.len - 1) -
            winMean 20 df.close (df.len - 1))) := by
  have hgate : ¬ (df.len = 0 ∨ df.len < 60) := by omega
  constructor
  · unfold calculate_technical_indicators
    rw [if_neg hgate]
    show some (crossoverFlag df.close) = _
    rw [crossoverFlag_eq df.close h]
    rfl
  · unfold calculate_us_technical_indicators
    rw [if_neg hgate]
    show some (crossoverFlag df.close) = _
    rw [crossoverFlag_eq df.close h]
    rfl

/-- Witness for C4 at the flat 60-bar frame (no crossover there: both SMA
differences vanish, so the flag computes to false on both sides). -/
theorem crossover_iff_sma_transition_witness :
    (calculate_technical_indicators demoTW).map TWIndicators.crossover =
      some (decide (0 < winMean 20 demoTW.close (demoTW.len - 2) -
          winMean 5 demoTW.close (demoTW.len - 2)) &&
        decide (0 < winMean 5 demoTW.close (demoTW.len - 1) -
          winMean 20 demoTW.close (demoTW.len - 1))) :=
  (crossover_iff_sma_transition ⟨2025, 12, 31⟩ demoTW (by decide)).1

theorem emaRun_length (alpha prev : ℚ) (l : List ℚ) :
    (emaRun alpha prev l).length = l.length := by
  induction l generalizing prev with
  | nil => rfl
  | cons x rest ih => simp [emaRun, ih]

theorem emaVals_length (k : ℕ) (ys : List ℚ) (hk : 0 < k) (h : k ≤ ys.length) :
    (emaVals k ys).length = ys.length - k + 1 := by
  unfold emaVals
  rw [if_neg (by omega)]
  simp [emaRun_length, List.length_drop]

theorem macdLineVals_length (xs : List ℚ) (h : 34 ≤ xs.length) :
    (macdLineVals xs).length = xs.length - 25 := by
  unfold macdLineVals
  rw [List.length_zipWith,
    emaVals_length 12 (xs.drop 14) (by norm_num) (by rw [List.length_drop]; omega),
    emaVals_length 26 xs (by norm_num) (by omega)]
  rw [List.length_drop]
  omega

theorem macdSignalVals_length (xs : List ℚ) (h : 34 ≤ xs.length) :
    (macdSignalVals xs).length = xs.length - 33 := by
  unfold macdSignalVals
  rw [emaVals_length 9 _ (by norm_num) (by rw [macdLineVals_length xs h]; omega),
    macdLineVals_length xs h]
  omega

theorem macdHistVals_length (xs : List ℚ) (h : 34 ≤ xs.length) :
    (macdHistVals xs).length = xs.length - 33 := by
  unfold macdHistVals
  rw [List.length_zipWith, List.length_drop, macdLineVals_length xs h,
    macdSignalVals_length xs h]
  omega

theorem macdHistArr_length (xs : List ℚ) :
    ((MACDarrays xs).2.2).length = xs.length := by
  unfold MACDarrays
  split
  · simp
  · next hn =>
      show (List.replicate 33 (none : Option ℚ) ++
        (macdHistVals xs).map some).length = xs.length
      rw [List.length_append, List.length_replicate, List.length_map,
        macdHistVals_length xs (by omega)]
      omega

theorem macdHistArr_getD (xs : List ℚ) (h : 34 ≤ xs.length) (i : ℕ)
    (h33 : 33 ≤ i) (hi : i < xs.length) :
    ((MACDarrays xs).2.2).getD i none =
      some ((macdHistVals xs).getD (i - 33) 0) := by
  unfold MACDarrays
  rw [if_neg (by omega)]
  show (List.replicate 33 (none : Option ℚ) ++
    (macdHistVals xs).map some).getD i none = _
  rw [List.getD_eq_getElem?_getD,
    List.getElem?_append_right (by rw [List.length_replicate]; omega)]
  rw [List.length_replicate, List.getElem?_map,
    List.getElem?_eq_getElem (by rw [macdHistVals_length xs h]; omega)]
  rw [List.getD_eq_getElem (macdHistVals xs) 0
    (by rw [macdHistVals_length xs h]; omega)]
  rfl

theorem macdhistSignalFlag_eq (xs : List ℚ) (h : 60 ≤ xs.length) :
    macdhistSignalFlag xs =
      (decide (0 < (macdHistVals xs).getD ((macdHistVals xs).length - 1) 0) &&
        decide ((macdHistVals xs).getD ((macdHistVals xs).length - 2) 0 < 0)) := by
  have hlen : ((MACDarrays xs).2.2).length = xs.length := macdHistArr_length xs
  simp only [macdhistSignalFlag, hlen]
  rw [if_pos (by omega)]
  rw [macdHistArr_getD xs (by omega) (xs.length - 1) (by omega) (by omega),
    macdHistArr_getD xs (by omega) (xs.length - 2) (by omega) (by omega)]
  rw [macdHistVals_length xs (by omega)]
  simp only [optGt0, optLt0]
  have e1 : xs.length - 1 - 33 = xs.length - 33 - 1 := by omega
  have e2 : xs.length - 2 - 33 = xs.length - 33 - 2 := by omega
  rw [e1, e2]

/-- C5: behind the 60-bar gate, where the MACD histogram always carries at
least two defined values, macdhist_signal of both engines is true iff the
latest defined histogram value is strictly positive and the immediately
prior one strictly negative. -/
theorem macdhist_signal_iff_bullish_cross (today : PDate) (df : BarSeries)
    (h : 60 ≤ df.len) :
    (calculate_technical_indicators df).map TWIndicators.macdhist_signal =
        some (decide (0 < (macdHistVals df.close).getD
            ((macdHistVals df.close).length - 1) 0) &&
          decide ((macdHistVals df.close).getD
            ((macdHistVals df.close).length - 2) 0 < 0)) ∧
      (calculate_us_technical_indicators today df).map
          USIndicators.macdhist_signal =
        some (decide (0 < (macdHistVals df.close).getD
            ((macdHistVals df.close).length - 1) 0) &&
          decide ((macdHistVals df.close).getD
            ((macdHistVals df.close).length - 2) 0 < 0)) := by
  have hgate : ¬ (df.len = 0 ∨ df.len < 60) := by omega
  constructor
  · unfold calculate_technical_indicators
    rw [if_neg hgate]
    show some (macdhistSignalFlag df.close) = _
    rw [macdhistSignalFlag_eq df.close h]
  · unfold calculate_us_technical_indicators
    rw [if_neg hgate]
    show some (macdhistSignalFlag df.close) = _
    rw [macdhistSignalFlag_eq df.close h]

/-- Witness for C5 at the flat 60-bar frame (its histogram is identically
zero, so the bullish-cross flag computes to false on both sides). -/
theorem macdhist_signal_iff_bullish_cross_witness :
    (calculate_technical_indicators demoTW).map TWIndicators.macdhist_signal =
      some (decide (0 < (macdHistVals demoTW.close).getD
          ((macdHistVals demoTW.close).length - 1) 0) &&
        decide ((macdHistVals demoTW.close).getD
          ((macdHistVals demoTW.close).length - 2) 0 < 0)) :=
  (macdhist_signal_iff_bullish_cross ⟨2025, 12, 31⟩ demoTW (by decide)).1

theorem safe_get_value_map_val_last (l : List ℚ) (h : 0 < l.length) :
    safe_get_value (l.map EF.val) (-1) = EF.val (l.getD (l.length - 1) 0) := by
  have hm : (l.map EF.val).length = l.length := List.length_map _ _
  have hi : ilocIndex (l.map EF.val).length (-1) = (l.length : ℤ) - 1 := by
    unfold ilocIndex
    rw [hm, if_pos (by norm_num)]
    ring
  have hin := safe_get_value_in_range (l.map EF.val) (-1)
    (by rw [hi, hm]; constructor <;> omega)
  rw [hin, hi]
  have ht : ((l.length : ℤ) - 1).toNat = l.length - 1 := by omega
  rw [ht]
  rw [List.getD_eq_getElem?_getD, List.getElem?_map,
    List.getElem?_eq_getElem (by omega : l.length - 1 < l.length)]
  rw [List.getD_eq_getElem l 0 (by omega)]
  rfl

theorem tw_volume_change_eq (volume : List ℚ) (h20 : 20 ≤ volume.length)
    (hm : (volume.drop (volume.length - 20)).sum / 20 ≠ 0) :
    tw_volume_change volume =
      EF.val ((volume.getD (volume.length - 1) 0 /
        ((volume.drop (volume.length - 20)).sum / 20) - 1) * 100) := by
  simp only [tw_volume_change]
  have hw : (((volume.drop (volume.length - 20)).length : ℕ) : ℚ) = 20 := by
    rw [List.length_drop, (by omega : volume.length - (volume.length - 20) = 20)]
    norm_num
  rw [safe_get_value_map_val_last volume (by omega), hw]
  simp only [EF.div, EF.sub, EF.neg, EF.add, EF.mul, if_neg hm]
  rw [EF.val.injEq]
  ring

theorem us_volume_block_eq (rowCount : ℕ) (volume : List ℚ)
    (hn : 20 ≤ rowCount) (h21 : 21 ≤ volume.length)
    (hlast : 0 < volume.getD (volume.length - 1) 0)
    (hmean : 0 < ((volume.drop (volume.length - 21)).take 20).sum / 20) :
    us_volume_block rowCount volume =
      (round2 ((volume.getD (volume.length - 1) 0 /
          (((volume.drop (volume.length - 21)).take 20).sum / 20) - 1) * 100),
        decide (30 < (volume.getD (volume.length - 1) 0 /
          (((volume.drop (volume.length - 21)).take 20).sum / 20) - 1) * 100)) := by
  simp only [us_volume_block]
  rw [if_pos hn, if_pos (by omega : 20 ≤ volume.length), if_pos h21,
    if_pos ⟨hmean, hlast⟩]

theorem demoVolumes_drop20 :
    demoVolumes.drop (demoVolumes.length - 20) = List.replicate 19 10 ++ [40] := by
  show demoVolumes.drop 40 = _
  unfold demoVolumes
  rw [List.drop_append_of_le_length (by simp)]
  norm_num

theorem demoVolumes_mean20 :
    (demoVolumes.drop (demoVolumes.length - 20)).sum / 20 = 23 / 2 := by
  rw [demoVolumes_drop20, List.sum_append, List.sum_replicate]
  norm_num

theorem demoVolumes_last : demoVolumes.getD (demoVolumes.length - 1) 0 = 40 := by
  show demoVolumes.getD 59 0 = 40
  unfold demoVolumes
  rw [List.getD_eq_getElem?_getD, List.getElem?_append_right (by simp)]
  simp

theorem demoVolumes_excl_mean :
    ((demoVolumes.drop (demoVolumes.length - 21)).take 20).sum / 20 = 10 := by
  have hd : (demoVolumes.drop (demoVolumes.length - 21)).take 20 =
      List.replicate 20 (10 : ℚ) := by
    show (demoVolumes.drop 39).take 20 = _
    unfold demoVolumes
    rw [List.drop_append_of_le_length (by simp), List.drop_replicate,
      (by norm_num : 59 - 39 = 20),
      List.take_append_of_le_length (by simp), List.take_replicate]
    norm_num
  rw [hd, List.sum_replicate]
  norm_num

/-- C3 amended: behind the 60-bar gate with an aligned volume column, the
TW engine computes volume_change from the trailing 20-bar mean INCLUDING
the final bar and reports it unrounded, with VC_30 true iff it exceeds 30;
the US and streamlit engines compute it from the 20 trailing volumes
excluding the final bar (given at least 21 observations; at exactly 20 they
fall back to the inclusive window), round the reported value to 2 decimals,
decide VC_30 on the unrounded value, and fall back to (0.0, False) when the
last volume or the window mean is not positive. -/
theorem volume_change_window_semantics (today : PDate) (df : BarSeries)
    (h60 : 60 ≤ df.len) (hv : df.volume.length = df.close.length)
    (htwm : (df.volume.drop (df.volume.length - 20)).sum / 20 ≠ 0)
    (hlast : 0 < df.volume.getD (df.volume.length - 1) 0)
    (husm : 0 < ((df.volume.drop (df.volume.length - 21)).take 20).sum / 20) :
    (calculate_technical_indicators df).map TWIndicators.volume_change =
        some (EF.val ((df.volume.getD (df.volume.length - 1) 0 /
          ((df.volume.drop (df.volume.length - 20)).sum / 20) - 1) * 100)) ∧
      (calculate_technical_indicators df).map TWIndicators.vc_30 =
        some (decide (30 < (df.volume.getD (df.volume.length - 1) 0 /
          ((df.volume.drop (df.volume.length - 20)).sum / 20) - 1) * 100)) ∧
      (calculate_us_technical_indicators today df).map USIndicators.volume_change =
        some (round2 ((df.volume.getD (df.volume.length - 1) 0 /
          (((df.volume.drop (df.volume.length - 21)).take 20).sum / 20) - 1) * 100)) ∧
      (calculate_us_technical_indicators today df).map USIndicators.vc_30 =
        some (decide (30 < (df.volume.getD (df.volume.length - 1) 0 /
          (((df.volume.drop (df.volume.length - 21)).take 20).sum / 20) - 1) * 100)) := by
  have hgate : ¬ (df.len = 0 ∨ df.len < 60) := by omega
  have hlen : df.len = df.close.length := rfl
  have h20 : 20 ≤ df.volume.length := by omega
  refine ⟨?_, ?_, ?_, ?_⟩
  · unfold calculate_technical_indicators
    rw [if_neg hgate]
    show some (tw_volume_change df.volume) = _
    rw [tw_volume_change_eq df.volume h20 htwm]
  · unfold calculate_technical_indicators
    rw [if_neg hgate]
    show some (tw_vc_30 df.volume) = _
    unfold tw_vc_30
    rw [tw_volume_change_eq df.volume h20 htwm]
    rfl
  · unfold calculate_us_technical_indicators
    rw [if_neg hgate]
    show some ((us_volume_block df.len df.volume).1) = _
    rw [us_volume_block_eq df.len df.volume (by omega) (by omega) hlast husm]
  · unfold calculate_us_technical_indicators
    rw [if_neg hgate]
    show some ((us_volume_block df.len df.volume).2) = _
    rw [us_volume_block_eq df.len df.volume (by omega) (by omega) hlast husm]

/-- Witness for the amended C3 theorem: the US engine on the spike frame
reports the rounded exclusive-window change. -/
theorem volume_change_window_semantics_witness :
    (calculate_us_technical_indicators ⟨2026, 1, 5⟩ demoTW).map
        USIndicators.volume_change =
      some (round2 ((demoTW.volume.getD (demoTW.volume.length - 1) 0 /
        (((demoTW.volume.drop (demoTW.volume.length - 21)).take 20).sum / 20) - 1) *
          100)) :=
  (volume_change_window_semantics ⟨2026, 1, 5⟩ demoTW (by decide) (by decide)
    (by rw [show demoTW.volume = demoVolumes from rfl, demoVolumes_mean20]; norm_num)
    (by rw [show demoTW.volume = demoVolumes from rfl, demoVolumes_last]; norm_num)
    (by rw [show demoTW.volume = demoVolumes from rfl, demoVolumes_excl_mean]
        norm_num)).2.2.1

/-- C3 counterexample: on the flat 60-bar frame with every volume 10 and a
final spike to 40, the TW engine reports volume_change = 5700/23 (about
247.8, computed from the 20-bar mean including the final bar), while the
claimed formula - the mean of the 20 trailing volumes excluding the final
bar - gives 300 on the same series. -/
theorem volume_change_excluding_mean_refuted :
    (calculate_technical_indicators demoTW).map TWIndicators.volume_change =
      some (EF.val (5700 / 23)) ∧
      (demoTW.volume.getD (demoTW.volume.length - 1) 0 /
        (((demoTW.volume.drop (demoTW.volume.length - 21)).take 20).sum / 20) - 1) *
          100 = 300 ∧
      (5700 / 23 : ℚ) ≠ 300 := by
  refine ⟨?_, ?_, by norm_num⟩
  · have hgate : ¬ (demoTW.len = 0 ∨ demoTW.len < 60) := by decide
    unfold calculate_technical_indicators
    rw [if_neg hgate]
    show some (tw_volume_change demoVolumes) = _
    rw [tw_volume_change_eq demoVolumes (by decide)
      (by rw [demoVolumes_mean20]; norm_num)]
    rw [demoVolumes_last, demoVolumes_mean20]
    norm_num
  · show (demoVolumes.getD (demoVolumes.length - 1) 0 /
      (((demoVolumes.drop (demoVolumes.length - 21)).take 20).sum / 20) - 1) *
        100 = 300
    rw [demoVolumes_last, demoVolumes_excl_mean]
    norm_num
